import Mathlib

/-!
Shallow embedding of the `mqtt-cs` repository (`src/mqtt/client.py`,
`src/mqtt/server.py`): two thin wrapper classes (`MQTTClient`, `MQTTServer`)
over a paho-mqtt `Client`.  The underlying paho client is modelled as a
record holding which callback handlers are installed plus a trace of the
external calls made on it (`connect`, `subscribe`, `publish`,
`username_pw_set`).  Python `print` output is modelled as a list of lines
on the wrapper state.  Python truthiness of the optional arguments is
modelled explicitly (`None` and the empty string / empty list are falsy).
-/

/-- ASCII whitespace, modelling the characters Python's `str.strip()`
removes in the inputs considered here. -/
def isSpaceChar (c : Char) : Bool :=
  c = ' ' || c = '\t' || c = '\n' || c = '\r' || c = '\x0b' || c = '\x0c'

/-- Model of Python `str.strip()`: drop whitespace from both ends. -/
def pyStrip (s : String) : String :=
  String.mk (((s.toList.dropWhile isSpaceChar).reverse.dropWhile isSpaceChar).reverse)

/-- Python truthiness of an `str | None` value: `None` and `""` are falsy. -/
def pyTruthyStr : Option String → Bool
  | none => false
  | some s => !s.isEmpty

/-- Python truthiness of a `list | None` value: `None` and `[]` are falsy. -/
def pyTruthyList : Option (List (String × Nat)) → Bool
  | none => false
  | some l => !l.isEmpty

/-- JSON values, the payload domain of `json.dumps` for `dict` messages. -/
inductive JVal where
  | jnull : JVal
  | jbool : Bool → JVal
  | jnum : Int → JVal
  | jstr : String → JVal
  | jarr : List JVal → JVal
  | jobj : List (String × JVal) → JVal

/-- One escaped character of a JSON string literal, as `json.dumps` emits it. -/
def jescChar (c : Char) : String :=
  if c = '"' then "\\\""
  else if c = '\\' then "\\\\"
  else if c = '\n' then "\\n"
  else if c = '\t' then "\\t"
  else if c = '\r' then "\\r"
  else String.singleton c

/-- A JSON string literal with quotes and escapes, as `json.dumps` emits it. -/
def jstrEnc (s : String) : String :=
  "\"" ++ String.join (s.toList.map jescChar) ++ "\""

mutual

/-- Model of Python `json.dumps` with its default separators. -/
def jdump : JVal → String
  | JVal.jnull => "null"
  | JVal.jbool true => "true"
  | JVal.jbool false => "false"
  | JVal.jnum n => toString n
  | JVal.jstr s => jstrEnc s
  | JVal.jarr xs => "[" ++ jdumpList xs ++ "]"
  | JVal.jobj xs => "\x7b" ++ jdumpObj xs ++ "\x7d"

/-- Comma-joined dump of a JSON array's elements. -/
def jdumpList : List JVal → String
  | [] => ""
  | [x] => jdump x
  | x :: y :: xs => jdump x ++ ", " ++ jdumpList (y :: xs)

/-- Comma-joined dump of a JSON object's key-value pairs. -/
def jdumpObj : List (String × JVal) → String
  | [] => ""
  | [(k, v)] => jstrEnc k ++ ": " ++ jdump v
  | (k, v) :: y :: xs => jstrEnc k ++ ": " ++ jdump v ++ ", " ++ jdumpObj (y :: xs)

end

/-- The callback handlers that can be installed on the paho client. The
wrapper classes' own handlers get one tag each; `custom n` stands for an
arbitrary user-supplied callable. -/
inductive Handler where
  | clientOnConnect : Handler
  | clientOnMessage : Handler
  | clientOnDisconnect : Handler
  | serverOnConnect : Handler
  | serverDefaultOnMessage : Handler
  | serverOnDisconnect : Handler
  | custom : Nat → Handler
deriving DecidableEq, Repr

/-- An external call performed on the underlying paho `Client`. -/
inductive ExtCall where
  | connect : String → Nat → Nat → ExtCall
  | subscribe : List (String × Nat) → ExtCall
  | publish : String → String → ExtCall
  | usernamePwSet : Option String → Option String → ExtCall
deriving DecidableEq, Repr

/-- Model of the underlying `paho.mqtt.client.Client`: installed callbacks
plus the trace of external calls made on it. -/
structure PahoClient where
  client_id : String
  on_connect : Option Handler
  on_message : Option Handler
  on_disconnect : Option Handler
  calls : List ExtCall
deriving DecidableEq, Repr

/-- Append one external call to the paho client's trace. -/
def PahoClient.addCall (m : PahoClient) (c : ExtCall) : PahoClient :=
  { m with calls := m.calls ++ [c] }

/-- A freshly constructed paho `Client(client_id=cid)`: no callbacks, no calls. -/
def PahoClient.new (cid : String) : PahoClient :=
  { client_id := cid, on_connect := none, on_message := none,
    on_disconnect := none, calls := [] }

/-- A `message: str | dict` argument of the wrappers' `publish`. -/
inductive PyMessage where
  | str : String → PyMessage
  | dict : List (String × JVal) → PyMessage

/-- State of an `MQTTClient` instance (`src/mqtt/client.py`). -/
structure MQTTClient where
  client_id : String
  mqtt_client : PahoClient
  connected : Bool
  sub_topics : Option (List (String × Nat))
  output : List String
deriving DecidableEq, Repr

/-- `MQTTClient.__init__`: strip the id, create the paho client, install the
three callbacks, clear `connected`, store `sub_topics` (default `None`). -/
def MQTTClient.init (client_id : String) (sub_topics : Option (List (String × Nat))) :
    MQTTClient :=
  let cid := pyStrip client_id
  { client_id := cid
  , mqtt_client :=
      { client_id := cid
      , on_connect := some Handler.clientOnConnect
      , on_message := some Handler.clientOnMessage
      , on_disconnect := some Handler.clientOnDisconnect
      , calls := [] }
  , connected := false
  , sub_topics := sub_topics
  , output := [] }

/-- `MQTTClient.connect(ip, port, keepalive)`: call the underlying
`connect`, then `subscribe(self.sub_topics)` if `self.sub_topics` is truthy. -/
def MQTTClient.connect (s : MQTTClient) (ip : String) (port keepalive : Nat) :
    MQTTClient :=
  let s1 := { s with mqtt_client := s.mqtt_client.addCall (ExtCall.connect ip port keepalive) }
  if pyTruthyList s1.sub_topics then
    { s1 with mqtt_client := s1.mqtt_client.addCall (ExtCall.subscribe (s1.sub_topics.getD [])) }
  else s1

/-- `MQTTClient.connect` with Python's default arguments `port=1883`,
`keepalive=60`. -/
def MQTTClient.connectDefault (s : MQTTClient) (ip : String) : MQTTClient :=
  s.connect ip 1883 60

/-- `MQTTClient.on_connect`: on `rc == 0`, set `connected` and print
`"<client_id> connected"`; otherwise do nothing. -/
def MQTTClient.on_connect (s : MQTTClient) (rc : Int) : MQTTClient :=
  if rc = 0 then
    { s with connected := true, output := s.output ++ [s.client_id ++ " connected"] }
  else s

/-- `MQTTClient.on_message` is a static method whose body is `pass`. -/
def MQTTClient.on_message (s : MQTTClient) : MQTTClient := s

/-- `MQTTClient.on_disconnect`: set `connected = False` for every `rc`. -/
def MQTTClient.on_disconnect (s : MQTTClient) (rc : Int) : MQTTClient :=
  { s with connected := false }

/-- `MQTTClient.publish(message, topic)`: JSON-encode a `dict` message,
pass a `str` unchanged, and publish on `topic or f"client/<id>"` (with the
f-string braces resolved; a falsy `topic` falls back to the default). -/
def MQTTClient.publish (s : MQTTClient) (message : PyMessage) (topic : Option String) :
    MQTTClient :=
  let payload : String :=
    match message with
    | PyMessage.str m => m
    | PyMessage.dict d => jdump (JVal.jobj d)
  let t : String :=
    match topic with
    | some t => if t = "" then "client/" ++ s.client_id else t
    | none => "client/" ++ s.client_id
  { s with mqtt_client := s.mqtt_client.addCall (ExtCall.publish t payload) }

/-- State of an `MQTTServer` instance (`src/mqtt/server.py`). -/
structure MQTTServer where
  server_id : String
  mqtt_server : PahoClient
  connected : Bool
  sub_topics : Option (List (String × Nat))
  connected_clients : List (String × String)
  output : List String
deriving DecidableEq, Repr

/-- `MQTTServer.__init__`: strip the id, create the paho client, call
`username_pw_set(username, password)` iff `username or password` is truthy,
install the three callbacks (the `on_message` one is the property getter's
`default_on_message`), clear `connected`, store `sub_topics` and an empty
`connected_clients` dict. -/
def MQTTServer.init (server_id : String) (username password : Option String)
    (sub_topics : Option (List (String × Nat))) : MQTTServer :=
  let sid := pyStrip server_id
  let creds : List ExtCall :=
    if pyTruthyStr username || pyTruthyStr password then
      [ExtCall.usernamePwSet username password]
    else []
  { server_id := sid
  , mqtt_server :=
      { client_id := sid
      , on_connect := some Handler.serverOnConnect
      , on_message := some Handler.serverDefaultOnMessage
      , on_disconnect := some Handler.serverOnDisconnect
      , calls := creds }
  , connected := false
  , sub_topics := sub_topics
  , connected_clients := []
  , output := [] }

/-- Python's default value of the `sub_topics` parameter of
`MQTTServer.__init__`. -/
def serverSubTopicsDefault : List (String × Nat) := [("client/+", 0)]

/-- `MQTTServer()` with all parameters left at their Python defaults
(`server_id="server"`, no credentials, `sub_topics=[('client/+', 0)]`). -/
def MQTTServer.initDefault : MQTTServer :=
  MQTTServer.init "server" none none (some serverSubTopicsDefault)

/-- `MQTTServer.connect(ip, port, keepalive)`: call the underlying
`connect`, then `subscribe(self.sub_topics)` if `self.sub_topics` is truthy. -/
def MQTTServer.connect (s : MQTTServer) (ip : String) (port keepalive : Nat) :
    MQTTServer :=
  let s1 := { s with mqtt_server := s.mqtt_server.addCall (ExtCall.connect ip port keepalive) }
  if pyTruthyList s1.sub_topics then
    { s1 with mqtt_server := s1.mqtt_server.addCall (ExtCall.subscribe (s1.sub_topics.getD [])) }
  else s1

/-- `MQTTServer.connect` with Python's default arguments `port=1883`,
`keepalive=60`. -/
def MQTTServer.connectDefault (s : MQTTServer) (ip : String) : MQTTServer :=
  s.connect ip 1883 60

/-- `MQTTServer.on_connect`: on `rc == 0`, set `connected` and print
`"<server_id> connected"`; otherwise do nothing. -/
def MQTTServer.on_connect (s : MQTTServer) (rc : Int) : MQTTServer :=
  if rc = 0 then
    { s with connected := true, output := s.output ++ [s.server_id ++ " connected"] }
  else s

/-- `MQTTServer.on_disconnect`: set `connected = False` for every `rc`. -/
def MQTTServer.on_disconnect (s : MQTTServer) (rc : Int) : MQTTServer :=
  { s with connected := false }

/-- The `MQTTServer.on_message` property getter: every read builds and
returns the local `default_on_message` function (which decodes the payload
and prints topic and message); it never consults instance state. -/
def MQTTServer.on_message (s : MQTTServer) : Handler :=
  Handler.serverDefaultOnMessage

/-- What `default_on_message` prints for a received message whose decoded
payload is `payload`: `print(topic, message)`. -/
def defaultOnMessageOutput (topic payload : String) : List String :=
  [topic ++ " " ++ payload]

/-- The `MQTTServer.on_message` property setter: install `callback` as the
underlying paho client's `on_message` handler. -/
def MQTTServer.on_message_set (s : MQTTServer) (callback : Handler) : MQTTServer :=
  { s with mqtt_server := { s.mqtt_server with on_message := some callback } }

/-- `MQTTServer.publish(message, topic)`: the body is `pass` — no state
change, no call on the underlying client, return `None`. -/
def MQTTServer.publish (s : MQTTServer) (message : PyMessage) (topic : Option String) :
    MQTTServer :=
  s

/-!
Heap model for the mutable default argument of `MQTTServer.__init__`
(`sub_topics: list[tuple[str, int]] = [('client/+', 0)]`, server.py line 48).
CPython evaluates a default-argument expression once, when the `def` is
executed at class-definition time, producing a single list object; every
call that omits the argument receives a reference to that same object.
We model list objects in a heap indexed by addresses; loading the module
allocates the default list at `serverDefaultAddr`.
-/

/-- A heap of Python list objects, indexed by address. -/
structure PyWorld where
  heap : List (List (String × Nat))
deriving DecidableEq, Repr

/-- The address of the default-argument list of `MQTTServer.__init__`,
allocated once when the `def` statement runs. -/
def serverDefaultAddr : Nat := 0

/-- The world right after importing `src/mqtt/server.py`: the default list
`[('client/+', 0)]` exists as one object at `serverDefaultAddr`. -/
def moduleLoad : PyWorld :=
  { heap := [[("client/+", 0)]] }

/-- Allocate a fresh list object, returning the new world and its address. -/
def allocList (w : PyWorld) (l : List (String × Nat)) : PyWorld × Nat :=
  ({ heap := w.heap ++ [l] }, w.heap.length)

/-- Read the list object at address `a`. -/
def heapRead (w : PyWorld) (a : Nat) : List (String × Nat) :=
  w.heap.getD a []

/-- In-place mutation of the list object at address `a`. -/
def heapWrite (w : PyWorld) (a : Nat) (l : List (String × Nat)) : PyWorld :=
  { heap := w.heap.set a l }

/-- Which list object a constructed `MQTTServer` stores as `self.sub_topics`:
an explicit argument is the caller's own (freshly allocated) object; an
omitted argument is a reference to the shared default object — CPython does
not copy it per instance. -/
def constructServerSub (w : PyWorld) (arg : Option (List (String × Nat))) :
    PyWorld × Nat :=
  match arg with
  | some l => allocList w l
  | none => (w, serverDefaultAddr)

/-!
Topic matcher. Modelled from the spec: the repository itself contains no
topic-matching code (the spec says so explicitly); section 4.1 of the spec
defines `matches(filter, topic)`: split both strings on `/`; `+` matches
exactly one segment; `#` (only as final segment) matches zero or more
remaining segments including none; topics beginning with `$` are excluded
from wildcard matches starting with `#` or `+` at the first segment.
-/

/-- Split a list of characters on `/`, accumulating the current segment. -/
def splitSegsAux : List Char → List Char → List String
  | [], acc => [String.mk acc.reverse]
  | c :: cs, acc =>
    if c = '/' then String.mk acc.reverse :: splitSegsAux cs []
    else splitSegsAux cs (c :: acc)

/-- Modelled from the spec: split a topic or filter string on `/`
(Python `str.split('/')`; the empty string yields one empty segment). -/
def splitSlash (s : String) : List String :=
  splitSegsAux s.toList []

/-- Modelled from the spec: segment-list matching. `+` matches exactly one
segment; `#` as the final filter segment matches zero or more remaining
segments including none; any other filter segment must equal the topic
segment. -/
def matchSegs : List String → List String → Bool
  | [], ts => ts.isEmpty
  | f :: fs, ts =>
    if f == "#" && fs.isEmpty then true
    else
      match ts with
      | [] => false
      | t :: ts => (f == "+" || f == t) && matchSegs fs ts

/-- A filter's segment list is valid when `#` occurs only as the final
segment ("`#` only as final segment"). -/
def validFilterSegs : List String → Bool
  | [] => true
  | f :: fs => (f == "#" && fs.isEmpty) || (f != "#" && validFilterSegs fs)

/-- Does the topic begin with `$` (system-topic convention)? -/
def isSysTopic (t : String) : Bool :=
  match t.toList with
  | c :: _ => c = '$'
  | [] => false

/-- Is the first segment of the filter a wildcard (`#` or `+`)? -/
def firstSegWildcard (f : String) : Bool :=
  match splitSlash f with
  | s :: _ => s == "#" || s == "+"
  | [] => false

/-- Modelled from the spec: `matches(filter, topic)` (named `topicMatches`
here because `matches` is reserved in Lean). Splits both strings on `/`,
applies the wildcard rules, and excludes `$`-topics from filters whose
first segment is a wildcard. Pure and deterministic. -/
def topicMatches (filter topic : String) : Bool :=
  if isSysTopic topic && firstSegWildcard filter then false
  else matchSegs (splitSlash filter) (splitSlash topic)

/-- Reference MQTT wildcard semantics on segment lists, written
declaratively: an empty filter matches exactly the empty topic; the final
segment `#` matches any remainder, including zero further levels; `+`
consumes exactly one topic segment; a literal segment matches only itself. -/
inductive RefMatch : List String → List String → Prop
  | nil : RefMatch [] []
  | hash (ts : List String) : RefMatch ["#"] ts
  | plus (fs : List String) (t : String) (ts : List String) :
      RefMatch fs ts → RefMatch ("+" :: fs) (t :: ts)
  | lit (f : String) (fs ts : List String) :
      f ≠ "+" → f ≠ "#" → RefMatch fs ts → RefMatch (f :: fs) (f :: ts)

/-- Reference MQTT wildcard semantics on whole strings: the segment-level
relation on the `/`-splits, with `$`-topics excluded from filters starting
with a wildcard segment. -/
def RefMatchStr (F T : String) : Prop :=
  ¬(isSysTopic T = true ∧ firstSegWildcard F = true) ∧
    RefMatch (splitSlash F) (splitSlash T)

/-- A sample `MQTTClient` instance, used to instantiate theorems. -/
def sampleClient : MQTTClient := MQTTClient.init "c1" none

/-- A sample `MQTTServer` instance, used to instantiate theorems. -/
def sampleServer : MQTTServer := MQTTServer.initDefault

theorem matchSegs_iff_refMatch (fs : List String) (hv : validFilterSegs fs = true)
    (ts : List String) : matchSegs fs ts = true ↔ RefMatch fs ts := by
  induction fs generalizing ts with
  | nil =>
    cases ts with
    | nil =>
      constructor
      · intro _; exact RefMatch.nil
      · intro _; rfl
    | cons t ts =>
      constructor
      · intro h; simp [matchSegs] at h
      · intro h; cases h
  | cons f fs ih =>
    by_cases hf : f = "#"
    · subst hf
      have hfs : fs = [] := by
        simpa [validFilterSegs] using hv
      subst hfs
      constructor
      · intro _; exact RefMatch.hash ts
      · intro _; simp [matchSegs]
    · have hv' : validFilterSegs fs = true := by
        simpa [validFilterSegs, hf] using hv
      have hfb : (f == "#") = false := by
        simpa using hf
      cases ts with
      | nil =>
        simp only [matchSegs, hfb, Bool.false_and, Bool.false_eq_true, if_false]
        constructor
        · intro h; cases h
        · intro h
          cases h
          exact absurd rfl hf
      | cons t ts =>
        simp only [matchSegs, hfb, Bool.false_and, Bool.false_eq_true, if_false,
          Bool.and_eq_true, Bool.or_eq_true, beq_iff_eq]
        rw [ih hv']
        constructor
        · rintro ⟨hft | hft, hm⟩
          · subst hft
            exact RefMatch.plus fs t ts hm
          · by_cases hp : f = "+"
            · subst hp
              exact RefMatch.plus fs t ts hm
            · subst hft
              exact RefMatch.lit _ fs ts hp hf hm
        · intro h
          cases h with
          | hash => exact absurd rfl hf
          | plus _ _ _ hm => exact ⟨Or.inl rfl, hm⟩
          | lit _ _ _ h1 h2 hm => exact ⟨Or.inr rfl, hm⟩

theorem topicMatches_iff_refMatchStr (F T : String)
    (hv : validFilterSegs (splitSlash F) = true) :
    topicMatches F T = true ↔ RefMatchStr F T := by
  by_cases hx : (isSysTopic T && firstSegWildcard F) = true
  · rw [Bool.and_eq_true] at hx
    constructor
    · intro h
      rw [topicMatches] at h
      simp [hx.1, hx.2] at h
    · rintro ⟨hn, _⟩
      exact absurd ⟨hx.1, hx.2⟩ hn
  · constructor
    · intro h
      rw [topicMatches, if_neg hx] at h
      refine ⟨?_, (matchSegs_iff_refMatch _ hv _).mp h⟩
      rintro ⟨h1, h2⟩
      exact hx (by rw [h1, h2]; exact rfl)
    · rintro ⟨hn, hm⟩
      rw [topicMatches, if_neg hx]
      exact (matchSegs_iff_refMatch _ hv _).mpr hm

/-- C1 (counterexample): the claim also covers `MQTTServer`, but at a
concrete server instance, `publish("hello", "my_topic")` leaves the state
unchanged and the underlying paho client's call trace stays empty — no
underlying `publish` is invoked, refuting the pass-through claim for
`MQTTServer`. -/
theorem server_publish_not_passthrough :
    MQTTServer.publish (MQTTServer.init "server" none none (some [("client/+", 0)]))
        (PyMessage.str "hello") (some "my_topic") =
      MQTTServer.init "server" none none (some [("client/+", 0)]) ∧
    (MQTTServer.publish (MQTTServer.init "server" none none (some [("client/+", 0)]))
        (PyMessage.str "hello") (some "my_topic")).mqtt_server.calls = [] :=
  ⟨rfl, by decide⟩

/-- C1 (amended): for every `MQTTClient` instance, `publish(message, topic)`
is a pass-through to the underlying paho client's `publish`: a `str`
message is passed as payload unchanged and a `dict` message is JSON-encoded
with `json.dumps` first, and the underlying `publish` is invoked with that
payload on the given (non-empty) topic; `MQTTServer.publish`, by contrast,
is an empty stub that performs no call on the underlying client. -/
theorem client_publish_passthrough (s : MQTTClient) (m : String)
    (d : List (String × JVal)) (t : String) (ht : t ≠ "") :
    MQTTClient.publish s (PyMessage.str m) (some t) =
      { s with mqtt_client := s.mqtt_client.addCall (ExtCall.publish t m) } ∧
    MQTTClient.publish s (PyMessage.dict d) (some t) =
      { s with mqtt_client :=
          s.mqtt_client.addCall (ExtCall.publish t (jdump (JVal.jobj d))) } ∧
    (∀ srv : MQTTServer, ∀ msg top, MQTTServer.publish srv msg top = srv) := by
  refine ⟨?_, ?_, fun srv msg top => rfl⟩
  · simp [MQTTClient.publish, if_neg ht]
  · simp [MQTTClient.publish, if_neg ht]

/-- C1 witness: the pass-through theorem applied at a concrete client,
message and topic. -/
theorem client_publish_passthrough_witness :
    MQTTClient.publish sampleClient (PyMessage.str "hi") (some "my_topic") =
      { sampleClient with mqtt_client :=
          sampleClient.mqtt_client.addCall (ExtCall.publish "my_topic" "hi") } :=
  (client_publish_passthrough sampleClient "hi" [] "my_topic" (by decide)).1

/-- C2: `MQTTServer.publish` is an empty stub — for every instance, every
message and every topic it returns the state (and `None`) unchanged and
performs no call on the underlying paho client. -/
theorem server_publish_is_stub (s : MQTTServer) (message : PyMessage)
    (topic : Option String) :
    MQTTServer.publish s message topic = s ∧
    (MQTTServer.publish s message topic).mqtt_server.calls = s.mqtt_server.calls :=
  ⟨rfl, rfl⟩

/-- C3: every construction of `MQTTClient` and of `MQTTServer` creates one
underlying paho client handle with its `on_connect`, `on_message` and
`on_disconnect` set to the wrapper's corresponding handlers (for the
server, the `on_message` handler is the property getter's
`default_on_message`) before the constructor returns. -/
theorem constructors_wire_three_callbacks (cid : String)
    (cst : Option (List (String × Nat))) (sid : String) (u p : Option String)
    (sst : Option (List (String × Nat))) :
    ((MQTTClient.init cid cst).mqtt_client.on_connect = some Handler.clientOnConnect ∧
     (MQTTClient.init cid cst).mqtt_client.on_message = some Handler.clientOnMessage ∧
     (MQTTClient.init cid cst).mqtt_client.on_disconnect = some Handler.clientOnDisconnect) ∧
    ((MQTTServer.init sid u p sst).mqtt_server.on_connect = some Handler.serverOnConnect ∧
     (MQTTServer.init sid u p sst).mqtt_server.on_message = some Handler.serverDefaultOnMessage ∧
     (MQTTServer.init sid u p sst).mqtt_server.on_disconnect = some Handler.serverOnDisconnect) :=
  ⟨⟨rfl, rfl, rfl⟩, ⟨rfl, rfl, rfl⟩⟩

/-- C4: for both wrappers, `connect(ip, port, keepalive)` calls the
underlying `connect` with exactly the given arguments (Python defaults
`port=1883`, `keepalive=60`), then calls the underlying `subscribe` on
`sub_topics` iff `sub_topics` is truthy — `None` and the empty list are
falsy, a non-empty list is truthy. -/
theorem connect_passthrough (c : MQTTClient) (srv : MQTTServer) (ip : String)
    (port keepalive : Nat) :
    MQTTClient.connect c ip port keepalive =
      { c with mqtt_client := { c.mqtt_client with
          calls := c.mqtt_client.calls ++ ExtCall.connect ip port keepalive ::
            (if pyTruthyList c.sub_topics then
              [ExtCall.subscribe (c.sub_topics.getD [])] else []) } } ∧
    MQTTClient.connectDefault c ip = MQTTClient.connect c ip 1883 60 ∧
    MQTTServer.connect srv ip port keepalive =
      { srv with mqtt_server := { srv.mqtt_server with
          calls := srv.mqtt_server.calls ++ ExtCall.connect ip port keepalive ::
            (if pyTruthyList srv.sub_topics then
              [ExtCall.subscribe (srv.sub_topics.getD [])] else []) } } ∧
    MQTTServer.connectDefault srv ip = MQTTServer.connect srv ip 1883 60 ∧
    pyTruthyList none = false ∧ pyTruthyList (some []) = false ∧
    (∀ x l, pyTruthyList (some (x :: l)) = true) := by
  refine ⟨?_, rfl, ?_, rfl, rfl, by decide, fun x l => by simp [pyTruthyList]⟩
  · by_cases h : pyTruthyList c.sub_topics
    · simp [MQTTClient.connect, PahoClient.addCall, h]
    · simp [MQTTClient.connect, PahoClient.addCall, h]
  · by_cases h : pyTruthyList srv.sub_topics
    · simp [MQTTServer.connect, PahoClient.addCall, h]
    · simp [MQTTServer.connect, PahoClient.addCall, h]

/-- C5: for every callable `c`, assigning `c` to the `on_message` property
of an `MQTTServer` installs `c` as the underlying paho client's
`on_message` handler, changing nothing else. -/
theorem server_on_message_setter_installs (s : MQTTServer) (c : Handler) :
    MQTTServer.on_message_set s c =
      { s with mqtt_server := { s.mqtt_server with on_message := some c } } ∧
    (MQTTServer.on_message_set s c).mqtt_server.on_message = some c :=
  ⟨rfl, rfl⟩

/-- C6: the `MQTTServer` constructor calls `username_pw_set(username,
password)` on the underlying client iff at least one of `username` or
`password` is truthy; in particular both-`None` and both-empty-string
configurations set no credentials. -/
theorem server_credentials_iff_truthy (sid : String) (u p : Option String)
    (st : Option (List (String × Nat))) :
    ((ExtCall.usernamePwSet u p ∈ (MQTTServer.init sid u p st).mqtt_server.calls) ↔
      (pyTruthyStr u = true ∨ pyTruthyStr p = true)) ∧
    (MQTTServer.init sid none none st).mqtt_server.calls = [] ∧
    (MQTTServer.init sid (some "") (some "") st).mqtt_server.calls = [] := by
  refine ⟨?_, rfl, by simp [MQTTServer.init, pyTruthyStr]; decide⟩
  by_cases h : (pyTruthyStr u || pyTruthyStr p) = true
  · have hcalls : (MQTTServer.init sid u p st).mqtt_server.calls =
        [ExtCall.usernamePwSet u p] := by
      simp [MQTTServer.init, h]
    rw [hcalls, Bool.or_eq_true] at *
    simp only [List.mem_singleton]
    exact iff_of_true trivial h
  · have hcalls : (MQTTServer.init sid u p st).mqtt_server.calls = [] := by
      simp [MQTTServer.init, h]
    rw [hcalls]
    rw [Bool.or_eq_true] at h
    exact iff_of_false (List.not_mem_nil _) h

/-- C7: the default value of `MQTTServer.__init__`'s `sub_topics` parameter
is the one list object `[('client/+', 0)]` allocated at module load; every
default construction stores a reference to that same object without
copying or allocating, so an in-place mutation through one default-built
instance's reference is observed through every other one (they all read the
shared address); passing the argument explicitly, by contrast, yields
distinct objects. -/
theorem server_default_sub_topics_shared :
    heapRead moduleLoad serverDefaultAddr = serverSubTopicsDefault ∧
    (∀ w, (constructServerSub w none).2 = serverDefaultAddr ∧
      (constructServerSub w none).1 = w) ∧
    (∀ l, heapRead (heapWrite moduleLoad serverDefaultAddr l) serverDefaultAddr = l) ∧
    (constructServerSub moduleLoad (some serverSubTopicsDefault)).2 ≠
      (constructServerSub (constructServerSub moduleLoad (some serverSubTopicsDefault)).1
        (some serverSubTopicsDefault)).2 :=
  ⟨rfl, fun w => ⟨rfl, rfl⟩, fun l => rfl, by decide⟩

/-- C8: the topic matcher (modelled from the spec, which the repository
never implements): `topicMatches` agrees with the declarative reference
wildcard semantics `RefMatchStr` on every topic and every valid filter
(`#` only as final segment); moreover `+` matches exactly one segment
(never zero, never two or more), `#` matches zero or more remaining
segments including none, and `+` does not cross `/`. -/
theorem topicMatches_spec (F T : String)
    (hv : validFilterSegs (splitSlash F) = true) :
    (topicMatches F T = true ↔ RefMatchStr F T) ∧
    (∀ t, matchSegs ["+"] [t] = true) ∧
    matchSegs ["+"] [] = false ∧
    (∀ t t2 ts, matchSegs ["+"] (t :: t2 :: ts) = false) ∧
    (∀ ts, matchSegs ["#"] ts = true) ∧
    topicMatches "a/+/c" "a/b/c" = true ∧
    topicMatches "+" "a/b" = false ∧
    topicMatches "a/#" "a" = true := by
  refine ⟨topicMatches_iff_refMatchStr F T hv, fun t => by simp [matchSegs],
    by decide, fun t t2 ts => by simp [matchSegs], fun ts => by simp [matchSegs],
    by decide, by decide, by decide⟩

/-- C8 witness: the matcher/reference agreement applied at the concrete
valid filter `sensors/#` and topic `sensors/temp/one`. -/
theorem topicMatches_spec_witness :
    topicMatches "sensors/#" "sensors/temp/one" = true ↔
      RefMatchStr "sensors/#" "sensors/temp/one" :=
  (topicMatches_spec "sensors/#" "sensors/temp/one" (by decide)).1

/-- C9: reading the `MQTTServer.on_message` property always yields the
freshly built `default_on_message` handler, regardless of the instance
state; in particular after `server.on_message = c` the getter still returns
the default handler, and not `c` whenever `c` is a different callable —
the set-then-get round trip does not return the value that was set. -/
theorem server_on_message_getter_fresh (s : MQTTServer) (c : Handler) :
    MQTTServer.on_message s = Handler.serverDefaultOnMessage ∧
    MQTTServer.on_message (MQTTServer.on_message_set s c) = Handler.serverDefaultOnMessage ∧
    (c ≠ Handler.serverDefaultOnMessage →
      MQTTServer.on_message (MQTTServer.on_message_set s c) ≠ c) :=
  ⟨rfl, rfl, fun h he => h he.symm⟩

/-- C9 witness: the round-trip theorem applied at a concrete server and a
concrete custom callable. -/
theorem server_on_message_getter_fresh_witness :
    MQTTServer.on_message (MQTTServer.on_message_set sampleServer (Handler.custom 0)) ≠
      Handler.custom 0 :=
  (server_on_message_getter_fresh sampleServer (Handler.custom 0)).2.2 (by decide)

/-- C10: for both wrappers, `connected` is `False` right after
construction; `on_connect` sets it to `True` exactly when `rc == 0` and
leaves it unchanged otherwise; `on_disconnect` sets it to `False` for every
result code. -/
theorem connected_flag_lifecycle (cid : String) (cst : Option (List (String × Nat)))
    (sid : String) (u p : Option String) (sst : Option (List (String × Nat)))
    (c : MQTTClient) (srv : MQTTServer) (rc rc2 : Int) :
    (MQTTClient.init cid cst).connected = false ∧
    (MQTTServer.init sid u p sst).connected = false ∧
    (MQTTClient.on_connect c rc).connected = (if rc = 0 then true else c.connected) ∧
    (MQTTServer.on_connect srv rc).connected = (if rc = 0 then true else srv.connected) ∧
    (MQTTClient.on_disconnect c rc2).connected = false ∧
    (MQTTServer.on_disconnect srv rc2).connected = false := by
  refine ⟨rfl, rfl, ?_, ?_, rfl, rfl⟩
  · by_cases h : rc = 0 <;> simp [MQTTClient.on_connect, h]
  · by_cases h : rc = 0 <;> simp [MQTTServer.on_connect, h]
